import Mathlib

/-!
Verification development for the OTA_TEST firmware repository.

The two hardware-facing components are embedded shallowly:

* `mlx90614_Handler.c` — the CRC-8 (PEC) validator and the temperature
  read transaction. Machine bytes are `Nat` with explicit `% 256`
  truncation where the C code stores into `uint8_t`; the `float`
  temperature arithmetic is modelled over `ℚ` (exact values of the
  decimal constants in the source).
* `SDCardHandler.c` — the storage component. The mounted filesystem is
  an association list from paths to file contents; `fopen` follows the
  C standard semantics for the mode string actually used by each
  function ("r" fails iff absent, "w" truncates-or-creates, "a" opens
  or creates and positions at the end). The model assumes a writable,
  mounted medium, so opens that the C semantics allows always succeed.
  SPI-bus and mount lifecycle are a small state record plus an event
  trace recording which platform calls each branch performs.
-/

namespace OTA

/-! ## Constants from `mlx90614_Handler.h` -/

def MLX90614_ADDR : Nat := 0x5A

def MLX90614_REG_ADDR : Nat := 0x07

def CRC8_POLYNOMIAL : Nat := 0x07

def SCALE_FACTOR : ℚ := 2 / 100

def KELVIN_OFFSET : ℚ := 27315 / 100

def FAHRENHEIT_OFFSET : ℚ := 32

def FAHRENHEIT_MULTIPLIER : ℚ := 9 / 5

def RETURN_NUM_MLX90614_READSUCCESSFULLY : Nat := 0

def RETURN_NUM_MLX90614_READFAIL : Nat := 1

/-! ## `CalculateCrc8` from `mlx90614_Handler.c`

One inner-loop round of the C code: `crc` is a `uint8_t`, so the shift
and xor happen in `int` and the stored result is truncated to 8 bits. -/

def crcRoundSrc (crc : Nat) : Nat :=
  if crc &&& 0x80 ≠ 0 then ((crc <<< 1) ^^^ CRC8_POLYNOMIAL) % 256
  else (crc <<< 1) % 256

/-- The 8-iteration inner `for` loop of `CalculateCrc8`. -/
def crcBitsSrc : Nat → Nat → Nat
  | 0, crc => crc
  | n + 1, crc => crcBitsSrc n (crcRoundSrc crc)

/-- `CalculateCrc8` from `mlx90614_Handler.c`: accumulator starts at
`0x00`; per byte, `crc ^= byte` (stored into `uint8_t`, hence `% 256`)
followed by 8 shift rounds. -/
def CalculateCrc8 (pecbuffer : List Nat) : Nat :=
  pecbuffer.foldl (fun crc b => crcBitsSrc 8 ((crc ^^^ b) % 256)) 0x00

/-! Reference definition written from the spec's words (§4.3): one
round tests the high bit (bit 7) of the accumulator, shifts left one
(multiplies by two) and xors polynomial 7 when that bit was set, all
truncated to 8-bit unsigned arithmetic. -/

def crc8SpecRound (acc : Nat) : Nat :=
  if acc.testBit 7 then ((acc * 2) ^^^ 7) % 256 else (acc * 2) % 256

def crc8SpecBits : Nat → Nat → Nat
  | 0, acc => acc
  | n + 1, acc => crc8SpecBits n (crc8SpecRound acc)

/-- The bit-serial CRC-8 reference of spec §4.3: accumulator 0, xor
each byte in (8-bit), then 8 rounds per byte. -/
def Crc8 (bytes : List Nat) : Nat :=
  bytes.foldl (fun acc b => crc8SpecBits 8 ((acc ^^^ b) % 256)) 0

/-- The all-zero 5-byte frame used as the spec's known test vector. -/
def zeroFrame : List Nat := [0, 0, 0, 0, 0]

/-! ## Supporting lemmas for the CRC equivalence -/

theorem and_128_ne_zero_iff (n : Nat) : n &&& 0x80 ≠ 0 ↔ n.testBit 7 = true := by
  have h : (0x80 : Nat) = 2 ^ 7 := by norm_num
  rw [h, Nat.and_two_pow]
  cases hb : n.testBit 7 <;> simp

theorem crcRoundSrc_eq_spec (crc : Nat) : crcRoundSrc crc = crc8SpecRound crc := by
  unfold crcRoundSrc crc8SpecRound CRC8_POLYNOMIAL
  have hs : crc <<< 1 = crc * 2 := by
    rw [Nat.shiftLeft_eq]
  by_cases h : crc.testBit 7 = true
  · rw [if_pos ((and_128_ne_zero_iff crc).mpr h), if_pos h, hs]
  · rw [if_neg (fun hc => h ((and_128_ne_zero_iff crc).mp hc)), if_neg h, hs]

theorem crcBitsSrc_eq_spec (n crc : Nat) : crcBitsSrc n crc = crc8SpecBits n crc := by
  induction n generalizing crc with
  | zero => rfl
  | succ k ih =>
    unfold crcBitsSrc crc8SpecBits
    rw [crcRoundSrc_eq_spec, ih]

theorem calculateCrc8_eq_crc8 (bs : List Nat) : CalculateCrc8 bs = Crc8 bs := by
  unfold CalculateCrc8 Crc8
  have h : ∀ (l : List Nat) (a : Nat),
      l.foldl (fun crc b => crcBitsSrc 8 ((crc ^^^ b) % 256)) a =
      l.foldl (fun acc b => crc8SpecBits 8 ((acc ^^^ b) % 256)) a := by
    intro l
    induction l with
    | nil => intro a; rfl
    | cons x xs ih =>
      intro a
      simp only [List.foldl_cons]
      rw [crcBitsSrc_eq_spec, ih]
  exact h bs 0

set_option maxRecDepth 4096 in
/-- C1: the CRC-8 validator `CalculateCrc8` computes, for every byte
sequence, exactly the bit-serial CRC-8 reference of the spec
(accumulator 0, per-byte xor, 8 shift-left rounds with polynomial 0x07
on a set high bit, in 8-bit unsigned arithmetic), and the all-zero
5-byte frame yields CRC 0x00. -/
theorem C1_calculateCrc8_matches_reference :
    (∀ bs : List Nat, CalculateCrc8 bs = Crc8 bs) ∧ CalculateCrc8 zeroFrame = 0 :=
  ⟨calculateCrc8_eq_crc8, by decide⟩

/-! ## `MLX90614ReadTemp` from `mlx90614_Handler.c`

The I2C transaction delivers three bytes (`lsb`, `msb`, `pec`, each a
`uint8_t`) and a completion status (`i2c_master_cmd_begin` returning
`ESP_OK` or not); these are the function's environment and are a
parameter of the model. The two `float*` out-parameters are modelled as
an `Option (ℚ × ℚ)` result: `none` means the pointers were never
written. -/

structure BusRead where
  ok : Bool
  lsb : Nat
  msb : Nat
  pec : Nat
  deriving DecidableEq

/-- The five-byte `pecbuffer` frame the code rebuilds:
`{(addr<<1)|W, reg, (addr<<1)|R, lsb, msb}`. -/
def mlxFrame (lsb msb : Nat) : List Nat :=
  [(MLX90614_ADDR <<< 1) ||| 0, MLX90614_REG_ADDR,
   (MLX90614_ADDR <<< 1) ||| 1, lsb, msb]

/-- `MLX90614ReadTemp`: on bus failure or PEC mismatch returns
`RETURN_NUM_MLX90614_READFAIL` with the outputs unwritten; otherwise
converts `rawtemp = (msb << 8) | lsb` (truncated to `uint16_t`) to
Kelvin, Celsius and Fahrenheit and returns the success code. -/
def MLX90614ReadTemp (bus : BusRead) : Nat × Option (ℚ × ℚ) :=
  if bus.ok = false then (RETURN_NUM_MLX90614_READFAIL, none)
  else
    if CalculateCrc8 (mlxFrame bus.lsb bus.msb) ≠ bus.pec then
      (RETURN_NUM_MLX90614_READFAIL, none)
    else
      let rawtemp : Nat := ((bus.msb <<< 8) ||| bus.lsb) % 65536
      let kelvin : ℚ := (rawtemp : ℚ) * SCALE_FACTOR
      (RETURN_NUM_MLX90614_READSUCCESSFULLY,
       some (kelvin - KELVIN_OFFSET,
             FAHRENHEIT_MULTIPLIER * (kelvin - KELVIN_OFFSET) + FAHRENHEIT_OFFSET))

/-- C2: whenever the bus transfer completed but the CRC-8 recomputed
over the five-byte frame differs from the received PEC byte, the call
returns the failure code and neither temperature output is written. -/
theorem C2_pec_mismatch_discards_sample (bus : BusRead)
    (hok : bus.ok = true)
    (hne : CalculateCrc8 (mlxFrame bus.lsb bus.msb) ≠ bus.pec) :
    MLX90614ReadTemp bus = (RETURN_NUM_MLX90614_READFAIL, none) := by
  unfold MLX90614ReadTemp
  rw [hok]
  simp only [Bool.true_eq_false, if_false]
  rw [if_pos hne]

set_option maxRecDepth 8192 in
/-- Witness for C2: with the zero data bytes and a wrong PEC (0xFF,
while the frame's true CRC is not 0xFF), the read fails and writes
nothing. -/
theorem C2_witness :
    MLX90614ReadTemp ⟨true, 0, 0, 0xFF⟩ = (RETURN_NUM_MLX90614_READFAIL, none) :=
  C2_pec_mismatch_discards_sample ⟨true, 0, 0, 0xFF⟩ rfl (by decide)

/-- Concatenating a high byte shifted left 8 with a low byte below 256
by bitwise or is the same as `2^8 * msb + lsb`. -/
theorem byte_concat_or (lsb msb : Nat) (hl : lsb < 256) :
    (msb <<< 8) ||| lsb = 2 ^ 8 * msb + lsb := by
  apply Nat.eq_of_testBit_eq
  intro j
  have hl8 : lsb < 2 ^ 8 := by omega
  rw [Nat.testBit_or, Nat.testBit_shiftLeft, Nat.testBit_mul_pow_two_add msb hl8]
  by_cases h : j < 8
  · simp [h, Nat.not_le.mpr h]
  · have h8 : 8 ≤ j := Nat.not_lt.mp h
    have hz : lsb.testBit j = false :=
      Nat.testBit_lt_two_pow
        (Nat.lt_of_lt_of_le hl8 (Nat.pow_le_pow_right (by norm_num : 0 < 2) h8))
    simp [h, h8, hz]

/-- C3: for every CRC-valid read the 16-bit raw value is assembled
little-endian (`raw = msb * 256 + lsb`), and the outputs are
`Celsius = raw * 0.02 - 273.15` and `Fahrenheit = 1.8 * Celsius + 32`;
in particular `lsb = msb = 0` yields Celsius `-273.15` and Fahrenheit
`-459.67`. -/
theorem C3_temperature_conversion (lsb msb : Nat) (hl : lsb < 256) (hm : msb < 256) :
    MLX90614ReadTemp ⟨true, lsb, msb, CalculateCrc8 (mlxFrame lsb msb)⟩ =
      (RETURN_NUM_MLX90614_READSUCCESSFULLY,
       some (((msb * 256 + lsb : Nat) : ℚ) * (2 / 100) - 27315 / 100,
             (9 / 5) * (((msb * 256 + lsb : Nat) : ℚ) * (2 / 100) - 27315 / 100) + 32)) ∧
    MLX90614ReadTemp ⟨true, 0, 0, CalculateCrc8 (mlxFrame 0 0)⟩ =
      (RETURN_NUM_MLX90614_READSUCCESSFULLY,
       some (-(27315 / 100 : ℚ), -(45967 / 100 : ℚ))) := by
  have key : ∀ l m : Nat, l < 256 → m < 256 →
      MLX90614ReadTemp ⟨true, l, m, CalculateCrc8 (mlxFrame l m)⟩ =
      (RETURN_NUM_MLX90614_READSUCCESSFULLY,
       some (((m * 256 + l : Nat) : ℚ) * (2 / 100) - 27315 / 100,
             (9 / 5) * (((m * 256 + l : Nat) : ℚ) * (2 / 100) - 27315 / 100) + 32)) := by
    intro l m hl hm
    have hraw : ((m <<< 8) ||| l) % 65536 = m * 256 + l := by
      rw [byte_concat_or l m hl]
      have hlt : 2 ^ 8 * m + l < 65536 := by omega
      rw [Nat.mod_eq_of_lt hlt]
      omega
    unfold MLX90614ReadTemp
    rw [if_neg (by simp), if_neg (by simp)]
    simp only [hraw, SCALE_FACTOR, KELVIN_OFFSET, FAHRENHEIT_MULTIPLIER, FAHRENHEIT_OFFSET]
  refine ⟨key lsb msb hl hm, ?_⟩
  have h0 := key 0 0 (by norm_num) (by norm_num)
  rw [h0]
  norm_num

/-- Witness for C3: the zero raw value gives exactly `-273.15` °C and
`-459.67` °F. -/
theorem C3_witness :
    MLX90614ReadTemp ⟨true, 0, 0, CalculateCrc8 (mlxFrame 0 0)⟩ =
      (RETURN_NUM_MLX90614_READSUCCESSFULLY,
       some (-(27315 / 100 : ℚ), -(45967 / 100 : ℚ))) :=
  (C3_temperature_conversion 0 0 (by norm_num) (by norm_num)).2

/-! ## Constants from `SDCardHandler.h` -/

def MOUNT_POINT : String := "/sdcard"

def RETURN_NUM_SDCARD_MOUNTSUCCESSFULLY : Nat := 0

def RETURN_NUM_SDCARD_MOUNTFAIL : Nat := 1

def RETURN_NUM_SDCARD_WRITESUCCESSFULL : Nat := 2

def RETURN_NUM_SDCARD_WRITEFAIL : Nat := 3

def RETURN_NUM_SDCARD_READSUCCESSFULL : Nat := 4

def RETURN_NUM_SDCARD_READFAIL : Nat := 5

def RETURN_NUM_SDCARD_APPENDSUCCESSFULLY : Nat := 6

def RETURN_NUM_SDCARD_APPENDFAIL : Nat := 7

/-! ## The mounted filesystem

File operations in `SDCardHandler.c` go through `fopen`; we embed the
mounted FAT volume as an association list from paths to file contents
and give each mode string its C-standard meaning: `"r"` fails iff the
path is absent, `"w"` truncates-or-creates, `"a"` opens-or-creates and
positions at end of file. The model is an ideal writable medium: opens
that the C semantics allows always succeed. -/

abbrev FS := List (String × String)

def fsLookup : FS → String → Option String
  | [], _ => none
  | (p, c) :: rest, q => if p = q then some c else fsLookup rest q

def fsSet : FS → String → String → FS
  | [], p, c => [(p, c)]
  | (q, d) :: rest, p, c =>
    if q = p then (p, c) :: rest else (q, d) :: fsSet rest p c

theorem fsLookup_fsSet_self (fs : FS) (p c : String) :
    fsLookup (fsSet fs p c) p = some c := by
  induction fs with
  | nil => simp [fsSet, fsLookup]
  | cons hd tl ih =>
    by_cases h : hd.1 = p
    · simp [fsSet, fsLookup, h]
    · simp [fsSet, fsLookup, h, ih]

def newlineStr : String := "\n"

def emptyStr : String := ""

def colonSpace : String := ": "

/-- The log-file path `MOUNT_POINT "/SDCARD.txt"` used by `LogToSDCard`. -/
def sdLogPath : String := MOUNT_POINT ++ "/SDCARD.txt"

/-- First fixed line written by `WriteFile`. -/
def sectrLine : String := "sectr!"

/-- Second fixed line written by `WriteFile`. -/
def consoleLine : String := "CONSOLE."

/-- The full fixed content `WriteFile` produces with its two `fprintf`
calls. -/
def writeFileContent : String :=
  sectrLine ++ newlineStr ++ consoleLine ++ newlineStr

/-! ## File operations from `SDCardHandler.c` -/

/-- `FileExists`: `fopen(path, "r")`, which succeeds exactly when the
path is present; the file is closed at once and the filesystem is
returned unchanged. -/
def FileExists (fs : FS) (path : String) : FS × Bool :=
  match fsLookup fs path with
  | some _ => (fs, true)
  | none => (fs, false)

/-- `CreateFile`: `fopen(path, "w")` then `fclose` — truncates the file
to empty, creating it if absent; on the ideal medium the open
succeeds. -/
def CreateFile (fs : FS) (path : String) : FS × Bool :=
  (fsSet fs path emptyStr, true)

/-- `WriteFile`: opens in `"w"` (truncate) mode and writes the two
fixed lines; the caller supplies no content. -/
def WriteFile (fs : FS) (path : String) : FS × Nat :=
  (fsSet fs path writeFileContent, RETURN_NUM_SDCARD_WRITESUCCESSFULL)

def newlineChar : Char := '\x0a'

/-- Split a character stream at newline characters, accumulating the
current chunk in reverse. -/
def splitNl : List Char → List Char → List String
  | [], acc => [String.mk acc.reverse]
  | c :: rest, acc =>
    if c = newlineChar then String.mk acc.reverse :: splitNl rest []
    else splitNl rest (c :: acc)

/-- Split contents into the lines the `fgets` loop of `ReadFile`
delivers, without their terminating newlines (lines in this
development are far below the 128-byte `fgets` buffer, whose chunking
is therefore not modelled). A trailing newline produces no extra empty
line, matching `fgets` returning NULL at end of file. -/
def linesOf (s : String) : List String :=
  let parts := splitNl s.data []
  match parts.getLast? with
  | some last => if last = emptyStr then parts.dropLast else parts
  | none => parts

/-- `ReadFile`: `fopen(path, "r")` fails iff the path is absent;
otherwise every line is printed in order; the filesystem is
unchanged. -/
def ReadFile (fs : FS) (path : String) : FS × Nat × List String :=
  match fsLookup fs path with
  | none => (fs, RETURN_NUM_SDCARD_READFAIL, [])
  | some c => (fs, RETURN_NUM_SDCARD_READSUCCESSFULL, linesOf c)

/-- `AppendFile`: `fopen(path, "a")` — per the C standard this opens
for appending and CREATES the file when it does not exist — then
writes `Data` plus a newline. -/
def AppendFile (fs : FS) (path : String) (data : String) : FS × Nat :=
  (fsSet fs path (((fsLookup fs path).getD emptyStr) ++ data ++ newlineStr),
   RETURN_NUM_SDCARD_APPENDSUCCESSFULLY)

/-- `LogToSDCard`: if `MOUNT_POINT "/SDCARD.txt"` does not exist it is
created first via `CreateFile`; then the file is opened in `"a"` mode
and the line `tag ++ ": " ++ message ++ "\n"` is appended. -/
def LogToSDCard (fs : FS) (tag message : String) : FS × Nat :=
  let fs1 := if (FileExists fs sdLogPath).2 then fs else (CreateFile fs sdLogPath).1
  (fsSet fs1 sdLogPath
    (((fsLookup fs1 sdLogPath).getD emptyStr) ++ tag ++ colonSpace ++ message ++ newlineStr),
   RETURN_NUM_SDCARD_APPENDSUCCESSFULLY)

/-- Concrete path used for the C4/C5 scenarios. -/
def missingPath : String := MOUNT_POINT ++ "/missing.txt"

/-- Concrete data string used for the C4/C5 scenarios. -/
def dataX : String := "X"

/-- Counterexample to C4: appending to a path on an empty filesystem
(the file was never created) SUCCEEDS (code 6, not the failure code 7)
and creates the file with the appended line — `fopen "a"` creates. -/
theorem C4_counterexample :
    (AppendFile [] missingPath dataX).2 = RETURN_NUM_SDCARD_APPENDSUCCESSFULLY ∧
    (AppendFile [] missingPath dataX).2 ≠ RETURN_NUM_SDCARD_APPENDFAIL ∧
    fsLookup (AppendFile [] missingPath dataX).1 missingPath =
      some (dataX ++ newlineStr) := by
  refine ⟨rfl, by decide, ?_⟩
  rw [show (AppendFile [] missingPath dataX).1 =
      fsSet [] missingPath (emptyStr ++ dataX ++ newlineStr) from rfl,
    fsLookup_fsSet_self]
  rw [emptyStr, String.empty_append]

/-- C4 (amended): `AppendFile` on a path that was never created does
NOT fail — `fopen "a"` creates the file — and returns the
append-success code, the file afterwards holding the data plus a
newline. -/
theorem C4_append_missing_creates (fs : FS) (path data : String)
    (h : fsLookup fs path = none) :
    (AppendFile fs path data).2 = RETURN_NUM_SDCARD_APPENDSUCCESSFULLY ∧
    fsLookup (AppendFile fs path data).1 path = some (data ++ newlineStr) := by
  unfold AppendFile
  rw [h]
  refine ⟨rfl, ?_⟩
  rw [fsLookup_fsSet_self, Option.getD_none, emptyStr, String.empty_append]

/-- Witness for the amended C4 at the concrete empty filesystem. -/
theorem C4_witness :
    (AppendFile [] missingPath dataX).2 = RETURN_NUM_SDCARD_APPENDSUCCESSFULLY ∧
    fsLookup (AppendFile [] missingPath dataX).1 missingPath =
      some (dataX ++ newlineStr) :=
  C4_append_missing_creates [] missingPath dataX rfl

/-- The fixed content splits into exactly the two fixed lines. -/
theorem linesOf_writeFileContent :
    linesOf writeFileContent = [sectrLine, consoleLine] := by decide

/-- Counterexample to C5: the write operation takes no content
argument — it stores the fixed two lines — so writing and then reading
back yields `["sectr!", "CONSOLE."]`, not the one line `["X"]` the
claim requires for `Write(path, "X")`. -/
theorem C5_counterexample :
    (ReadFile (WriteFile [] missingPath).1 missingPath).2 =
      (RETURN_NUM_SDCARD_READSUCCESSFULL, [sectrLine, consoleLine]) ∧
    [sectrLine, consoleLine] ≠ [dataX] := by
  constructor
  · simp only [ReadFile, WriteFile, fsLookup_fsSet_self, linesOf_writeFileContent]
  · decide

/-- C5 (amended): `WriteFile(path)` ignores any caller content: it
opens in truncate mode and stores exactly the fixed bytes
`"sectr!\n" ++ "CONSOLE.\n"`, so a subsequent `ReadFile` of the same
path succeeds and yields exactly the two lines `["sectr!",
"CONSOLE."]`. -/
theorem C5_write_read_roundtrip (fs : FS) (path : String) :
    (WriteFile fs path).2 = RETURN_NUM_SDCARD_WRITESUCCESSFULL ∧
    fsLookup (WriteFile fs path).1 path = some writeFileContent ∧
    (ReadFile (WriteFile fs path).1 path).2 =
      (RETURN_NUM_SDCARD_READSUCCESSFULL, [sectrLine, consoleLine]) := by
  refine ⟨rfl, ?_, ?_⟩
  · unfold WriteFile
    rw [fsLookup_fsSet_self]
  · simp only [ReadFile, WriteFile, fsLookup_fsSet_self, linesOf_writeFileContent]

/-- C7: `FileExists` is a side-effect-free, idempotent probe: it
leaves the filesystem unchanged, two consecutive calls agree, and it
reports `false` exactly when the path cannot be opened read-only
(i.e. is absent). -/
theorem C7_fileExists_pure_idempotent (fs : FS) (path : String) :
    (FileExists fs path).1 = fs ∧
    (FileExists (FileExists fs path).1 path).2 = (FileExists fs path).2 ∧
    ((FileExists fs path).2 = false ↔ fsLookup fs path = none) := by
  unfold FileExists
  cases h : fsLookup fs path <;> simp [h]

/-- C8: when `MOUNT_POINT "/SDCARD.txt"` is absent, `LogToSDCard`
first creates it, then appends `tag ++ ": " ++ message ++ "\n"`, and
returns the append-success code. -/
theorem C8_log_creates_then_appends (fs : FS) (tag message : String)
    (h : fsLookup fs sdLogPath = none) :
    (LogToSDCard fs tag message).2 = RETURN_NUM_SDCARD_APPENDSUCCESSFULLY ∧
    fsLookup (LogToSDCard fs tag message).1 sdLogPath =
      some (tag ++ colonSpace ++ message ++ newlineStr) := by
  unfold LogToSDCard FileExists CreateFile
  rw [h]
  simp only [Bool.false_eq_true, if_false]
  refine ⟨trivial, ?_⟩
  rw [fsLookup_fsSet_self, fsLookup_fsSet_self, Option.getD_some, emptyStr,
    String.empty_append]

/-- Witness for C8: logging on the empty filesystem creates the log
file and appends the formatted line. -/
theorem C8_witness :
    (LogToSDCard [] sectrLine dataX).2 = RETURN_NUM_SDCARD_APPENDSUCCESSFULLY ∧
    fsLookup (LogToSDCard [] sectrLine dataX).1 sdLogPath =
      some (sectrLine ++ colonSpace ++ dataX ++ newlineStr) :=
  C8_log_creates_then_appends [] sectrLine dataX rfl

/-! ## Mount / unmount lifecycle from `SDCardHandler.c`

`InitSdCard` and `SdCardUnmount` drive two exclusive platform
resources: the SPI bus (claimed by `spi_bus_initialize`, released by
`spi_bus_free`) and the FAT mount. The platform's `esp_err_t` results
(0 = `ESP_OK`) are parameters of the model; each function returns its
post state together with the ordered trace of platform calls it
performed. -/

inductive SdEvent where
  | spiBusInit
  | mountAttempt
  | spiBusFree
  | unmountAttempt
  deriving DecidableEq

structure SdState where
  busClaimed : Bool
  mounted : Bool
  deriving DecidableEq

/-- `InitSdCard`: on `spi_bus_initialize` failure it returns `ret`
directly — an `esp_err_t` squeezed through the `uint8_t` return type,
hence truncated `% 256` — without touching the mount; on mount failure
it calls `spi_bus_free` and returns `RETURN_NUM_SDCARD_MOUNTFAIL`;
otherwise the card is mounted with the bus claimed. -/
def InitSdCard (s : SdState) (busErr mountErr : Nat) : SdState × List SdEvent × Nat :=
  if busErr ≠ 0 then
    (s, [SdEvent.spiBusInit], busErr % 256)
  else
    if mountErr ≠ 0 then
      ({ s with busClaimed := false },
       [SdEvent.spiBusInit, SdEvent.mountAttempt, SdEvent.spiBusFree],
       RETURN_NUM_SDCARD_MOUNTFAIL)
    else
      ({ s with busClaimed := true, mounted := true },
       [SdEvent.spiBusInit, SdEvent.mountAttempt],
       RETURN_NUM_SDCARD_MOUNTSUCCESSFULLY)

/-- `SdCardUnmount`: `esp_vfs_fat_sdcard_unmount` first; only in its
`ESP_OK` branch is `spi_bus_free` called (its own failure merely
printed). On unmount failure nothing is released. -/
def SdCardUnmount (s : SdState) (unmountErr busFreeErr : Nat) : SdState × List SdEvent :=
  if unmountErr = 0 then
    ({ busClaimed := if busFreeErr = 0 then false else s.busClaimed,
       mounted := false },
     [SdEvent.unmountAttempt, SdEvent.spiBusFree])
  else
    (s, [SdEvent.unmountAttempt])

/-- C6: if SPI-bus initialization fails, `InitSdCard` returns that
failure without attempting to mount and without changing any state;
if mounting fails, it frees the bus and returns the mount-failure
code, leaving device and bus in their pre-call state. -/
theorem C6_initSdCard_error_paths (s : SdState) (busErr mountErr : Nat)
    (hpre : s.busClaimed = false) :
    (busErr ≠ 0 →
      InitSdCard s busErr mountErr = (s, [SdEvent.spiBusInit], busErr % 256) ∧
      SdEvent.mountAttempt ∉ (InitSdCard s busErr mountErr).2.1) ∧
    (busErr = 0 → mountErr ≠ 0 →
      (InitSdCard s busErr mountErr).1 = s ∧
      (InitSdCard s busErr mountErr).2.2 = RETURN_NUM_SDCARD_MOUNTFAIL ∧
      (InitSdCard s busErr mountErr).2.1 =
        [SdEvent.spiBusInit, SdEvent.mountAttempt, SdEvent.spiBusFree]) := by
  constructor
  · intro hb
    unfold InitSdCard
    rw [if_pos hb]
    exact ⟨rfl, by simp⟩
  · intro hb hm
    unfold InitSdCard
    rw [if_neg (by simp [hb]), if_pos hm]
    refine ⟨?_, rfl, rfl⟩
    cases s with
    | mk bc m => simp at hpre; simp [hpre]

/-- Witness for C6: from the idle state, a failing mount (`esp_err_t`
5) leaves the state untouched and reports the mount-failure code after
freeing the bus. -/
theorem C6_witness :
    (InitSdCard ⟨false, false⟩ 0 5).1 = ⟨false, false⟩ ∧
    (InitSdCard ⟨false, false⟩ 0 5).2.2 = RETURN_NUM_SDCARD_MOUNTFAIL ∧
    (InitSdCard ⟨false, false⟩ 0 5).2.1 =
      [SdEvent.spiBusInit, SdEvent.mountAttempt, SdEvent.spiBusFree] :=
  (C6_initSdCard_error_paths ⟨false, false⟩ 0 5 rfl).2 rfl (by decide)

/-- C9: `SdCardUnmount` issues `spi_bus_free` only when the filesystem
unmount succeeded; on unmount failure the state — in particular the
claimed SPI bus — is left untouched. -/
theorem C9_busFree_only_after_unmount (s : SdState) (unmountErr busFreeErr : Nat) :
    (SdEvent.spiBusFree ∈ (SdCardUnmount s unmountErr busFreeErr).2 → unmountErr = 0) ∧
    (unmountErr ≠ 0 →
      SdCardUnmount s unmountErr busFreeErr = (s, [SdEvent.unmountAttempt]) ∧
      (SdCardUnmount s unmountErr busFreeErr).1.busClaimed = s.busClaimed) := by
  unfold SdCardUnmount
  by_cases h : unmountErr = 0
  · rw [if_pos h]
    exact ⟨fun _ => h, fun hn => absurd h hn⟩
  · rw [if_neg h]
    refine ⟨fun hmem => ?_, fun _ => ⟨rfl, rfl⟩⟩
    simp at hmem

/-- Witness for C9: a failed unmount (`esp_err_t` 7) from the mounted
state performs no bus release and keeps the bus claimed. -/
theorem C9_witness :
    SdCardUnmount ⟨true, true⟩ 7 0 = (⟨true, true⟩, [SdEvent.unmountAttempt]) ∧
    (SdCardUnmount ⟨true, true⟩ 7 0).1.busClaimed = (true : Bool) :=
  (C9_busFree_only_after_unmount ⟨true, true⟩ 7 0).2 (by decide)

/-- C10: on SPI bus-initialization failure `InitSdCard` returns the
platform error truncated to 8 bits rather than a value from the
documented `{0, 1}` return set; the platform value `0x102`
(`ESP_ERR_INVALID_ARG`) truncates to 2, colliding with the
write-success code. -/
theorem C10_truncated_busInit_return (s : SdState) (busErr mountErr : Nat)
    (h : busErr ≠ 0) :
    (InitSdCard s busErr mountErr).2.2 = busErr % 256 ∧
    (InitSdCard s 0x102 mountErr).2.2 = RETURN_NUM_SDCARD_WRITESUCCESSFULL ∧
    (InitSdCard s 0x102 mountErr).2.2 ≠ RETURN_NUM_SDCARD_MOUNTSUCCESSFULLY ∧
    (InitSdCard s 0x102 mountErr).2.2 ≠ RETURN_NUM_SDCARD_MOUNTFAIL := by
  have h2 : (InitSdCard s 0x102 mountErr).2.2 = 2 := by
    unfold InitSdCard
    rw [if_pos (by decide : (0x102 : Nat) ≠ 0)]
  refine ⟨?_, by rw [h2]; rfl, by rw [h2]; decide, by rw [h2]; decide⟩
  unfold InitSdCard
  rw [if_pos h]

/-- Witness for C10: bus-init failure `0x102` yields return value 2,
the write-success code, outside the documented mount return set. -/
theorem C10_witness :
    (InitSdCard ⟨false, false⟩ 0x102 0).2.2 = (0x102 : Nat) % 256 ∧
    (InitSdCard ⟨false, false⟩ 0x102 0).2.2 = RETURN_NUM_SDCARD_WRITESUCCESSFULL ∧
    (InitSdCard ⟨false, false⟩ 0x102 0).2.2 ≠ RETURN_NUM_SDCARD_MOUNTSUCCESSFULLY ∧
    (InitSdCard ⟨false, false⟩ 0x102 0).2.2 ≠ RETURN_NUM_SDCARD_MOUNTFAIL :=
  C10_truncated_busInit_return ⟨false, false⟩ 0x102 0 (by decide)

end OTA
